import Mathlib

/-!
Shallow embedding of `ginga/util/mosaic.py` (function `mosaic` and CLI
entry `main`), together with spec-level models of its external
collaborators (WCS parameter extraction, blank-canvas allocation, the
mosaic compositor and the image loader), and theorems settling the
claims about the module.

Conventions of the embedding:
* floating-point quantities are modelled as rationals (`ℚ`);
* Python exceptions are modelled by the `Except PyError` monad;
* the module-level trace of calls into the external collaborators is
  recorded as a list of events, so that statements about call order,
  call arguments and call counts can be made;
* Python object identity (needed for "mutated in place, never
  replaced") is modelled by an `objId` field that in-place mutation
  preserves;
* Python name resolution for the free variable `io_fits` is modelled
  explicitly: the module's global namespace is the list of names bound
  by its import statements and top-level defs, and evaluating
  `io_fits.load_file(...)` first looks `io_fits` up in that namespace,
  raising `NameError` when absent.
-/

/-- Decidable equality for `Except`, so concrete runs can be checked
by `decide`. -/
instance {e a : Type} [DecidableEq e] [DecidableEq a] : DecidableEq (Except e a) := fun x y =>
  match x, y with
  | .ok u, .ok v =>
      if h : u = v then isTrue (by rw [h])
      else isFalse (by intro hc; cases hc; exact h rfl)
  | .error u, .error v =>
      if h : u = v then isTrue (by rw [h])
      else isFalse (by intro hc; cases hc; exact h rfl)
  | .ok _, .error _ => isFalse (by intro hc; cases hc)
  | .error _, .ok _ => isFalse (by intro hc; cases hc)

/-- Python runtime errors that the embedded code can raise. -/
inductive PyError where
  | indexError
  | keyError (k : String)
  | nameError (n : String)
  | loadError (path : String)
  | wcsResolutionError
  | allocationError
  | outOfBoundsError
deriving Repr, DecidableEq

/-- The WCS keywords of a FITS header that the mosaic code consumes:
reference sky coordinate (CRVAL1/CRVAL2), reference pixel
(CRPIX1/CRPIX2), per-axis pixel scale with sign (CDELT1/CDELT2) and
rotation angle in degrees. -/
structure WcsInfo where
  crval1 : ℚ
  crval2 : ℚ
  crpix1 : ℚ
  crpix2 : ℚ
  cdelt1 : ℚ
  cdelt2 : ℚ
  rot : ℚ
deriving Repr, DecidableEq

/-- A FITS header, reduced to the part the mosaic code reads: the WCS
keyword block, possibly absent (unresolvable WCS). -/
structure FitsHeader where
  wcs : Option WcsInfo
deriving Repr, DecidableEq

/-- An `AstroImage`: pixel grid plus header metadata.  `objId` models
Python object identity (fresh objects get distinct ids; in-place
mutation keeps the id). -/
structure AstroImage where
  objId : Nat
  name : Option String
  header : FitsHeader
  data : List (List ℚ)
deriving Repr, DecidableEq

/-- Number of pixel rows of an image. -/
def imgHeight (img : AstroImage) : Nat := img.data.length

/-- Number of pixel columns of an image. -/
def imgWidth (img : AstroImage) : Nat := (img.data.headD []).length

/-- An element of `itemlist`: either an already-loaded `AstroImage` or
a file path, exactly the two cases `isinstance(item, AstroImage.AstroImage)`
distinguishes. -/
inductive Item where
  | image (img : AstroImage)
  | path (p : String)
deriving Repr, DecidableEq

/-- `np.sign` on rationals. -/
def np_sign (x : ℚ) : ℚ := if 0 < x then 1 else if x < 0 then -1 else 0

/-- The global names bound at module level in `ginga/util/mosaic.py`:
the names introduced by its import statements (lines 13-21) and its two
top-level functions.  `io_fits` is not among them. -/
def moduleGlobals : List String :=
  ["sys", "os", "math", "np", "AstroImage", "wcs", "loader", "dp", "log",
   "mosaic", "main"]

/-- Modelled from the spec: `wcs.get_rotation_and_scale` (the WCS
Parameter Extractor, spec §4.1) is not under `src/`.  Given a header it
returns `(rotation_deg, scale_x, scale_y)` with signs preserved, and
signals `WcsResolutionError` when the required keywords are absent. -/
def get_rotation_and_scale (h : FitsHeader) : Except PyError (ℚ × ℚ × ℚ) :=
  match h.wcs with
  | some w => .ok (w.rot, w.cdelt1, w.cdelt2)
  | none => .error .wcsResolutionError

/-- Modelled from the spec: `AstroImage.get_keywords_list('CRVAL1', 'CRVAL2')`
(external to `src/`) returns the reference sky coordinate from the
header, failing when the keywords are absent. -/
def get_keywords_crval (img : AstroImage) : Except PyError (ℚ × ℚ) :=
  match img.header.wcs with
  | some w => .ok (w.crval1, w.crval2)
  | none => .error (.keyError "CRVAL1")

/-- Modelled from the spec: `dp.create_blank_image` (the Canvas
Allocator, spec §4.2) is not under `src/`.  With `fov_deg = none` it
allocates a minimal 1×1 placeholder canvas; with a given field of view
it allocates a square grid of `fov_deg / px_scale` pixels per side,
centred on the reference sky coordinate, failing with
`AllocationError` on a non-positive or degenerate (sub-pixel) request.
The requested rotation and the axis-sign convention `cdbase` are baked
into the returned header (`cdelt_i = cdbase_i * px_scale`).  The
allocated canvas carries the fixed object id `0`. -/
def create_blank_image (ra_deg dec_deg : ℚ) (fov_deg : Option ℚ)
    (px_scale rot_deg : ℚ) (cdbase : ℚ × ℚ) : Except PyError AstroImage :=
  match fov_deg with
  | none =>
      .ok { objId := 0, name := some "mosaic",
            header := { wcs := some { crval1 := ra_deg, crval2 := dec_deg,
                                      crpix1 := 1/2, crpix2 := 1/2,
                                      cdelt1 := cdbase.1 * px_scale,
                                      cdelt2 := cdbase.2 * px_scale,
                                      rot := rot_deg } },
            data := [[0]] }
  | some fov =>
      if fov ≤ 0 ∨ px_scale ≤ 0 then .error .allocationError
      else
        let side : Int := (fov / px_scale).floor
        if side < 1 then .error .allocationError
        else
          let n := side.toNat
          .ok { objId := 0, name := some "mosaic",
                header := { wcs := some { crval1 := ra_deg, crval2 := dec_deg,
                                          crpix1 := (n : ℚ) / 2,
                                          crpix2 := (n : ℚ) / 2,
                                          cdelt1 := cdbase.1 * px_scale,
                                          cdelt2 := cdbase.2 * px_scale,
                                          rot := rot_deg } },
                data := List.replicate n (List.replicate n 0) }

/-- A placement record (spec §3): source name, computed pixel offset,
and whether the canvas was expanded to accommodate the image. -/
structure Placement where
  srcName : Option String
  offX : Int
  offY : Int
  expanded : Bool
deriving Repr, DecidableEq

/-- Modelled from the spec: the sky→canvas-pixel inverse transform the
Compositor uses to locate an image on the canvas (spec §4.3 step 1-2).
Returns the canvas pixel coordinates of the image's (0,0) pixel.  Fails
with `WcsResolutionError` when either WCS is unresolvable or the canvas
scale is degenerate. -/
def placement_offset (c img : AstroImage) : Except PyError (Int × Int) :=
  match c.header.wcs, img.header.wcs with
  | some cw, some iw =>
      if cw.cdelt1 = 0 ∨ cw.cdelt2 = 0 then .error .wcsResolutionError
      else
        let skyx := iw.crval1 + iw.cdelt1 * (0 - iw.crpix1)
        let skyy := iw.crval2 + iw.cdelt2 * (0 - iw.crpix2)
        let px := (skyx - cw.crval1) / cw.cdelt1 + cw.crpix1
        let py := (skyy - cw.crval2) / cw.cdelt2 + cw.crpix2
        .ok (px.floor, py.floor)
  | _, _ => .error .wcsResolutionError

/-- The transformed extent of `img`, placed with its (0,0) pixel at
canvas pixel `(x, y)`, lies within the current canvas bounds. -/
def inBounds (c img : AstroImage) (x y : Int) : Bool :=
  decide (0 ≤ x) && decide (0 ≤ y) &&
  decide (x + imgWidth img ≤ imgWidth c) &&
  decide (y + imgHeight img ≤ imgHeight c)

/-- Overwrite one cell of a pixel grid (no-op out of range). -/
def setCell (g : List (List ℚ)) (y x : Nat) (v : ℚ) : List (List ℚ) :=
  g.set y ((g.getD y []).set x v)

/-- Copy `src` into `dst` with its (0,0) pixel at `(x0, y0)`,
overwriting prior content (last write wins, spec §4.3 step 4). -/
def blit (dst src : List (List ℚ)) (x0 y0 : Nat) : List (List ℚ) :=
  src.enum.foldl
    (fun d jr => jr.2.enum.foldl
      (fun d2 iv => setCell d2 (y0 + jr.1) (x0 + iv.1) iv.2) d)
    dst

/-- Modelled from the spec: one step of the Mosaic Compositor
(`AstroImage.mosaic_inline`, spec §4.3), for a single image.  The
bounds check precedes every mutation: when `allow_expand` is false and
the image does not fit, `OutOfBoundsError` is signalled before the
canvas is touched.  Expansion pads the grid with the background value 0
and shifts the reference pixel so the existing sky mapping is
unchanged.  In-place mutation preserves `objId`. -/
def inline_one (c img : AstroImage) (allow_expand : Bool) :
    Except PyError (AstroImage × Placement) :=
  match placement_offset c img with
  | .error e => .error e
  | .ok xy =>
      let x := xy.1
      let y := xy.2
      if inBounds c img x y then
        .ok ({ c with data := blit c.data img.data x.toNat y.toNat },
             ⟨img.name, x, y, false⟩)
      else if allow_expand then
        let nx0 := min x 0
        let ny0 := min y 0
        let nx1 := max (x + imgWidth img) (imgWidth c)
        let ny1 := max (y + imgHeight img) (imgHeight c)
        let sx := (-nx0).toNat
        let sy := (-ny0).toNat
        let nw := (nx1 - nx0).toNat
        let nh := (ny1 - ny0).toNat
        let base := List.replicate nh (List.replicate nw (0 : ℚ))
        let grown := blit base c.data sx sy
        let newData := blit grown img.data (x + sx).toNat (y + sy).toNat
        let newHdr : FitsHeader :=
          match c.header.wcs with
          | some cw => { wcs := some { cw with crpix1 := cw.crpix1 + sx,
                                               crpix2 := cw.crpix2 + sy } }
          | none => c.header
        .ok ({ c with data := newData, header := newHdr },
             ⟨img.name, x, y, true⟩)
      else
        .error .outOfBoundsError

/-- Modelled from the spec: `mosaic_inline` over a list of images with
Python in-place mutation semantics — the result carries the canvas as
mutated so far, the placement records appended so far, and the error
(if any) that stopped processing.  An error on one image leaves the
canvas exactly as it was before that image's step. -/
def mosaic_inline_state (c : AstroImage) (imgs : List AstroImage)
    (allow_expand : Bool) : AstroImage × List Placement × Option PyError :=
  match imgs with
  | [] => (c, [], none)
  | img :: rest =>
      match inline_one c img allow_expand with
      | .ok cp =>
          let r := mosaic_inline_state cp.1 rest allow_expand
          (r.1, cp.2 :: r.2.1, r.2.2)
      | .error e => (c, [], some e)

/-- The compositor call as the driver sees it: the placements on
success, the propagated exception on failure. -/
def mosaic_inline (c : AstroImage) (imgs : List AstroImage)
    (allow_expand : Bool) : Except PyError (AstroImage × List Placement) :=
  match mosaic_inline_state c imgs allow_expand with
  | (c', pls, none) => .ok (c', pls)
  | (_, _, some e) => .error e

/-- Events recording the calls `mosaic`/`main` make into external
collaborators, with the arguments that the claims talk about.  An
`inlineCall` records the id of the canvas operated on, the names of the
images passed, and the `allow_expand` argument — `none` when the call
site passes no such argument (the callee's default applies). -/
inductive Ev where
  | loadData (path : String)
  | ioFitsLoadFile (path : String)
  | getRotationAndScale
  | createBlank (ra dec : ℚ) (fov : Option ℚ) (pxScale rot : ℚ) (cdbase : ℚ × ℚ)
  | inlineCall (canvasId : Nat) (names : List (Option String))
      (allowExpandArg : Option Bool)
  | removeFile (path : String)
  | saveAsFile (path : String) (imgId : Nat)
deriving Repr, DecidableEq

/-- The driver monad: a Python computation that may raise, recording
its trace of external calls. -/
def M (α : Type) : Type := List Ev → Except PyError α × List Ev

/-- `pure` for `M`. -/
def M.pure (a : α) : M α := fun t => (.ok a, t)

/-- `bind` for `M`: an exception short-circuits, the trace so far is
kept. -/
def M.bind (x : M α) (f : α → M β) : M β := fun t =>
  match x t with
  | (.ok a, t') => f a t'
  | (.error e, t') => (.error e, t')

instance : Monad M where
  pure := M.pure
  bind := M.bind

/-- Raise a Python exception. -/
def M.throw (e : PyError) : M α := fun t => (.error e, t)

/-- Record one external call in the trace. -/
def emit (ev : Ev) : M Unit := fun t => (.ok (), t ++ [ev])

/-- Run an external computation, propagating its exception. -/
def liftE (x : Except PyError α) : M α := fun t => (x, t)

/-- The world outside the module: the image loader behind
`loader.load_data`, what `io_fits.load_file` would do if the name
`io_fits` resolved, and the Compositor's default expansion policy (its
value is left abstract: the spec does not fix it). -/
structure Env where
  load_data : String → Except PyError AstroImage
  io_fits_load_file : String → Except PyError AstroImage
  default_allow_expand : Bool

/-- Lines 34-41 of `mosaic.py`: resolve item 0 — use it directly when
it is an `AstroImage`, otherwise load it via `loader.load_data`; the
name is `image0.get('name', 'image0')` resp. the file path. -/
def resolveItem0 (env : Env) (it : Item) : M (AstroImage × String) :=
  match it with
  | .image img => M.pure (img, img.name.getD "image0")
  | .path p => do
      emit (.loadData p)
      let img ← liftE (env.load_data p)
      M.pure (img, p)

/-- Lines 72-78 of `mosaic.py`: resolve a subsequent item.  An
`AstroImage` is used directly; for a path the code evaluates
`io_fits.load_file(filepath, ...)`, which first resolves the global
name `io_fits` — absent from `moduleGlobals`, so this raises
`NameError` before any load is attempted. -/
def resolveRest (env : Env) (it : Item) : M AstroImage :=
  match it with
  | .image img => M.pure img
  | .path p =>
      if "io_fits" ∈ moduleGlobals then do
        emit (.ioFitsLoadFile p)
        liftE (env.io_fits_load_file p)
      else M.throw (.nameError "io_fits")

/-- Lines 72-85 of `mosaic.py`: one iteration of the loop over
`itemlist[1:]` — resolve the item, then
`img_mosaic.mosaic_inline([image])` with no `allow_expand` argument
(the callee default applies). -/
def loopBody (env : Env) (canvas : AstroImage) (it : Item) : M AstroImage := do
  let image ← resolveRest env it
  emit (.inlineCall canvas.objId [image.name] none)
  let r ← liftE (mosaic_inline canvas [image] env.default_allow_expand)
  M.pure r.1

/-- Lines 71-86 of `mosaic.py`: the `for item in itemlist[1:]` loop. -/
def mosaicLoop (env : Env) (canvas : AstroImage) : List Item → M AstroImage
  | [] => M.pure canvas
  | it :: rest => do
      let c' ← loopBody env canvas it
      mosaicLoop env c' rest

/-- Lines 24-89 of `mosaic.py`: the `mosaic` driver.  `itemlist[0]` on
an empty list raises `IndexError`.  Then: resolve item 0, read
CRVAL1/CRVAL2, extract rotation and scale, set
`px_scale = fabs(cdelt1)`, `expand = (fov_deg is None)`,
`cdbase = [sign cdelt1, sign cdelt2]`, allocate the blank canvas,
re-extract rotation and scale from its header (debug logging), inline
item 0 with `allow_expand=expand`, then run the loop over the rest. -/
def mosaic (env : Env) (itemlist : List Item) (fov_deg : Option ℚ) :
    M AstroImage :=
  match itemlist with
  | [] => M.throw .indexError
  | it0 :: rest => do
      let r0 ← resolveItem0 env it0
      let image0 := r0.1
      let rd ← liftE (get_keywords_crval image0)
      emit .getRotationAndScale
      let rcc ← liftE (get_rotation_and_scale image0.header)
      let rot_deg := rcc.1
      let cdelt1 := rcc.2.1
      let cdelt2 := rcc.2.2
      let px_scale := |cdelt1|
      let expand := fov_deg.isNone
      let cdbase := (np_sign cdelt1, np_sign cdelt2)
      emit (.createBlank rd.1 rd.2 fov_deg px_scale rot_deg cdbase)
      let img_mosaic ← liftE (create_blank_image rd.1 rd.2 fov_deg px_scale
        rot_deg cdbase)
      emit .getRotationAndScale
      let _ ← liftE (get_rotation_and_scale img_mosaic.header)
      emit (.inlineCall img_mosaic.objId [image0.name] (some expand))
      let r1 ← liftE (mosaic_inline img_mosaic [image0] expand)
      mosaicLoop env r1.1 rest

/-- Run `mosaic` from an empty trace. -/
def runMosaic (env : Env) (itemlist : List Item) (fov_deg : Option ℚ) :
    Except PyError AstroImage × List Ev :=
  mosaic env itemlist fov_deg []

/-- The CLI options `main` consumes: `--fov` and `-o`, `--outfile`. -/
structure Options where
  fov : Option ℚ
  outfile : Option String
deriving Repr, DecidableEq

/-- Lines 91-107 of `mosaic.py`: `main` builds the mosaic, and when an
output file is given evaluates `io_fits.use('astropy')` (resolving the
global name `io_fits` — a `NameError`, as in the loop), then
`os.remove(outfile)` with `OSError` ignored, then
`img_mosaic.save_as_file(outfile)`.  (The source name `main` is
reserved by Lean, hence `main_cli`.) -/
def main_cli (env : Env) (options : Options) (args : List Item) : M Unit := do
  let img_mosaic ← mosaic env args options.fov
  match options.outfile with
  | none => M.pure ()
  | some outfile => do
      if "io_fits" ∈ moduleGlobals then M.pure () else M.throw (.nameError "io_fits")
      emit (.removeFile outfile)
      emit (.saveAsFile outfile img_mosaic.objId)

/-- Run `main` from an empty trace. -/
def runMain (env : Env) (options : Options) (args : List Item) :
    Except PyError Unit × List Ev :=
  main_cli env options args []

/-! ### Concrete fixtures used by witnesses and counterexamples -/

/-- A simple 1×1 test image with a fully resolvable WCS. -/
def wcsA : WcsInfo :=
  { crval1 := 10, crval2 := 20, crpix1 := 1/2, crpix2 := 1/2,
    cdelt1 := 1, cdelt2 := 1, rot := 0 }

/-- Test image `a`: one pixel of value 5 at sky reference (10, 20). -/
def imgA : AstroImage :=
  { objId := 1, name := some "a", header := { wcs := some wcsA }, data := [[5]] }

/-- Test image `b`: one pixel of value 7, same footprint as `imgA`. -/
def imgB : AstroImage :=
  { objId := 2, name := some "b", header := { wcs := some wcsA }, data := [[7]] }

/-- An environment whose loader fails on every path. -/
def envT : Env :=
  { load_data := fun p => .error (.loadError p),
    io_fits_load_file := fun p => .error (.loadError p),
    default_allow_expand := false }

/-- An environment whose loader returns `imgA` for every path. -/
def envL : Env :=
  { load_data := fun _ => .ok imgA,
    io_fits_load_file := fun p => .error (.loadError p),
    default_allow_expand := false }

/-! ### Helper lemmas: running the driver monad -/

/-- A placeholder image for the unreachable branch of `itemImage`. -/
def blankImage : AstroImage :=
  { objId := 0, name := none, header := { wcs := none }, data := [] }

/-- The image held by an already-loaded item. -/
def itemImage : Item → AstroImage
  | .image img => img
  | .path _ => blankImage

/-- The trace of resolving item 0: a load event for a path, nothing
for an already-loaded image. -/
def item0LoadEvents : Item → List Ev
  | .image _ => []
  | .path p => [Ev.loadData p]

theorem M_bind_ok {α β : Type} {x : M α} {a : α} {t t' : List Ev}
    (f : α → M β) (h : x t = (.ok a, t')) : (x >>= f) t = f a t' := by
  show M.bind x f t = f a t'
  unfold M.bind
  rw [h]

theorem M_bind_error {α β : Type} {x : M α} {e : PyError} {t t' : List Ev}
    (f : α → M β) (h : x t = (.error e, t')) : (x >>= f) t = (.error e, t') := by
  show M.bind x f t = (.error e, t')
  unfold M.bind
  rw [h]

theorem M_pure_eq {α : Type} (a : α) (t : List Ev) :
    (M.pure a : M α) t = (.ok a, t) := rfl

theorem emit_eq (ev : Ev) (t : List Ev) : emit ev t = (.ok (), t ++ [ev]) := rfl

theorem liftE_eq {α : Type} (x : Except PyError α) (t : List Ev) :
    liftE x t = (x, t) := rfl

theorem M_throw_eq {α : Type} (e : PyError) (t : List Ev) :
    (M.throw e : M α) t = (.error e, t) := rfl

theorem io_fits_not_global : "io_fits" ∉ moduleGlobals := by decide

theorem resolveItem0_image (env : Env) (img : AstroImage) (t0 : List Ev) :
    resolveItem0 env (Item.image img) t0 = (.ok (img, img.name.getD "image0"), t0) := rfl

theorem resolveItem0_path_ok {env : Env} {p : String} {img : AstroImage}
    (t0 : List Ev) (h : env.load_data p = .ok img) :
    resolveItem0 env (Item.path p) t0 = (.ok (img, p), t0 ++ [Ev.loadData p]) := by
  show (emit (Ev.loadData p) >>= fun _ =>
    liftE (env.load_data p) >>= fun img => M.pure (img, p)) t0 = _
  rw [M_bind_ok _ (emit_eq _ _), M_bind_ok _ (by rw [liftE_eq, h])]
  rfl

theorem resolveItem0_path_error {env : Env} {p : String} {e : PyError}
    (t0 : List Ev) (h : env.load_data p = .error e) :
    resolveItem0 env (Item.path p) t0 = (.error e, t0 ++ [Ev.loadData p]) := by
  show (emit (Ev.loadData p) >>= fun _ =>
    liftE (env.load_data p) >>= fun img => M.pure (img, p)) t0 = _
  rw [M_bind_ok _ (emit_eq _ _), M_bind_error _ (by rw [liftE_eq, h])]

theorem resolveRest_image (env : Env) (img : AstroImage) (t0 : List Ev) :
    resolveRest env (Item.image img) t0 = (.ok img, t0) := rfl

theorem resolveRest_path (env : Env) (p : String) (t0 : List Ev) :
    resolveRest env (Item.path p) t0 = (.error (.nameError "io_fits"), t0) := by
  show (if "io_fits" ∈ moduleGlobals then
      emit (Ev.ioFitsLoadFile p) >>= fun _ => liftE (env.io_fits_load_file p)
    else M.throw (.nameError "io_fits")) t0 = _
  rw [if_neg io_fits_not_global]
  rfl

theorem loopBody_path (env : Env) (canvas : AstroImage) (p : String)
    (t0 : List Ev) :
    loopBody env canvas (Item.path p) t0 = (.error (.nameError "io_fits"), t0) := by
  show (resolveRest env (Item.path p) >>= fun image =>
    emit (Ev.inlineCall canvas.objId [image.name] none) >>= fun _ =>
    liftE (mosaic_inline canvas [image] env.default_allow_expand) >>= fun r =>
    M.pure r.1) t0 = _
  rw [M_bind_error _ (resolveRest_path env p t0)]

theorem loopBody_image_ok {env : Env} {canvas img c' : AstroImage}
    {pls : List Placement} (t0 : List Ev)
    (h : mosaic_inline canvas [img] env.default_allow_expand = .ok (c', pls)) :
    loopBody env canvas (Item.image img) t0 =
      (.ok c', t0 ++ [Ev.inlineCall canvas.objId [img.name] none]) := by
  show (resolveRest env (Item.image img) >>= fun image =>
    emit (Ev.inlineCall canvas.objId [image.name] none) >>= fun _ =>
    liftE (mosaic_inline canvas [image] env.default_allow_expand) >>= fun r =>
    M.pure r.1) t0 = _
  rw [M_bind_ok _ (resolveRest_image env img t0), M_bind_ok _ (emit_eq _ _),
      M_bind_ok _ (by rw [liftE_eq, h])]
  rfl

theorem loopBody_image_error {env : Env} {canvas img : AstroImage} {e : PyError}
    (t0 : List Ev)
    (h : mosaic_inline canvas [img] env.default_allow_expand = .error e) :
    loopBody env canvas (Item.image img) t0 =
      (.error e, t0 ++ [Ev.inlineCall canvas.objId [img.name] none]) := by
  show (resolveRest env (Item.image img) >>= fun image =>
    emit (Ev.inlineCall canvas.objId [image.name] none) >>= fun _ =>
    liftE (mosaic_inline canvas [image] env.default_allow_expand) >>= fun r =>
    M.pure r.1) t0 = _
  rw [M_bind_ok _ (resolveRest_image env img t0), M_bind_ok _ (emit_eq _ _),
      M_bind_error _ (by rw [liftE_eq, h])]

theorem mosaicLoop_nil (env : Env) (canvas : AstroImage) (t0 : List Ev) :
    mosaicLoop env canvas [] t0 = (.ok canvas, t0) := rfl

theorem mosaicLoop_cons (env : Env) (canvas : AstroImage) (it : Item)
    (rest : List Item) (t0 : List Ev) :
    mosaicLoop env canvas (it :: rest) t0 =
      match loopBody env canvas it t0 with
      | (.ok c', t') => mosaicLoop env c' rest t'
      | (.error e, t') => (.error e, t') := by
  show (loopBody env canvas it >>= fun c' => mosaicLoop env c' rest) t0 = _
  cases h : loopBody env canvas it t0 with
  | mk r t' =>
    cases r with
    | ok c' => rw [M_bind_ok _ h]
    | error e => rw [M_bind_error _ h]

theorem inline_one_objId {c img : AstroImage} {b : Bool}
    {cp : AstroImage × Placement} (h : inline_one c img b = .ok cp) :
    cp.1.objId = c.objId := by
  unfold inline_one at h
  cases hp : placement_offset c img with
  | error e => rw [hp] at h; cases h
  | ok xy =>
    rw [hp] at h
    simp only [] at h
    split_ifs at h <;> (cases h; rfl)

theorem mosaic_inline_state_objId (imgs : List AstroImage) :
    ∀ (c : AstroImage) (b : Bool),
      (mosaic_inline_state c imgs b).1.objId = c.objId := by
  induction imgs with
  | nil => intro c b; rfl
  | cons img rest ih =>
    intro c b
    simp only [mosaic_inline_state]
    cases h : inline_one c img b with
    | ok cp =>
      simp only []
      rw [ih cp.1 b, inline_one_objId h]
    | error e => rfl

theorem mosaic_inline_objId {c : AstroImage} {imgs : List AstroImage} {b : Bool}
    {c' : AstroImage} {pls : List Placement}
    (h : mosaic_inline c imgs b = .ok (c', pls)) : c'.objId = c.objId := by
  unfold mosaic_inline at h
  cases hs : mosaic_inline_state c imgs b with
  | mk c1 r =>
    cases r with
    | mk pls1 e1 =>
      rw [hs] at h
      cases e1 with
      | none =>
        cases h
        have := mosaic_inline_state_objId imgs c b
        rw [hs] at this
        exact this
      | some e => cases h

theorem create_blank_image_ok {ra dec : ℚ} {fov : Option ℚ} {px rot : ℚ}
    {cb : ℚ × ℚ} {canvas : AstroImage}
    (h : create_blank_image ra dec fov px rot cb = .ok canvas) :
    canvas.objId = 0 ∧
    ∃ q, canvas.header.wcs =
      some (WcsInfo.mk ra dec q q (cb.1 * px) (cb.2 * px) rot) := by
  unfold create_blank_image at h
  cases fov with
  | none =>
    cases h
    exact ⟨rfl, ⟨1/2, rfl⟩⟩
  | some f =>
    simp only [] at h
    split_ifs at h
    cases h
    exact ⟨rfl, ⟨_, rfl⟩⟩

/-- Complete characterisation of the loop over `itemlist[1:]`: every
event it appends is an `inlineCall` on the same canvas object with no
`allow_expand` argument; and when it completes successfully, every item
it processed was an already-loaded image, the canvas object is the one
it started with, and it appended exactly one inline call per item, in
item order. -/
theorem mosaicLoop_spec (env : Env) :
    ∀ (items : List Item) (canvas : AstroImage) (t0 : List Ev)
      (r : Except PyError AstroImage) (t : List Ev),
      mosaicLoop env canvas items t0 = (r, t) →
      (∃ d, t = t0 ++ d ∧
        ∀ e ∈ d, ∃ nm, e = Ev.inlineCall canvas.objId nm none) ∧
      (∀ c, r = .ok c →
        c.objId = canvas.objId ∧
        (∀ it ∈ items, ∃ img, it = Item.image img) ∧
        t = t0 ++ items.map
          (fun it => Ev.inlineCall canvas.objId [(itemImage it).name] none)) := by
  intro items
  induction items with
  | nil =>
    intro canvas t0 r t h
    rw [mosaicLoop_nil] at h
    cases h
    refine ⟨⟨[], by simp, by simp⟩, ?_⟩
    intro c hc
    cases hc
    exact ⟨rfl, by simp, by simp⟩
  | cons it rest ih =>
    intro canvas t0 r t h
    rw [mosaicLoop_cons] at h
    cases it with
    | path p =>
      rw [loopBody_path] at h
      simp only [] at h
      cases h
      refine ⟨⟨[], by simp, by simp⟩, ?_⟩
      intro c hc
      cases hc
    | image img =>
      cases hi : mosaic_inline canvas [img] env.default_allow_expand with
      | error e =>
        rw [loopBody_image_error t0 hi] at h
        simp only [] at h
        cases h
        refine ⟨⟨[Ev.inlineCall canvas.objId [img.name] none], by simp, ?_⟩, ?_⟩
        · intro e he
          simp at he
          exact ⟨[img.name], he⟩
        · intro c hc
          cases hc
      | ok cp =>
        obtain ⟨c1, pls1⟩ := cp
        rw [loopBody_image_ok t0 hi] at h
        simp only [] at h
        have hobj : c1.objId = canvas.objId := mosaic_inline_objId hi
        obtain ⟨⟨d, hd, hde⟩, hok⟩ :=
          ih c1 (t0 ++ [Ev.inlineCall canvas.objId [img.name] none]) r t h
        constructor
        · refine ⟨Ev.inlineCall canvas.objId [img.name] none :: d, by simpa using hd, ?_⟩
          intro e he
          rcases List.mem_cons.1 he with h1 | h1
          · exact ⟨[img.name], h1⟩
          · obtain ⟨nm, hnm⟩ := hde e h1
            exact ⟨nm, by rw [hnm, hobj]⟩
        · intro c hc
          obtain ⟨h1, h2, h3⟩ := hok c hc
          refine ⟨by rw [h1, hobj], ?_, ?_⟩
          · intro x hx
            rcases List.mem_cons.1 hx with h4 | h4
            · exact ⟨img, h4⟩
            · exact h2 x h4
          · rw [h3, hobj]
            simp [itemImage]

theorem get_keywords_crval_some {img : AstroImage} {w : WcsInfo}
    (h : img.header.wcs = some w) :
    get_keywords_crval img = .ok (w.crval1, w.crval2) := by
  unfold get_keywords_crval
  rw [h]

theorem get_keywords_crval_none {img : AstroImage}
    (h : img.header.wcs = none) :
    get_keywords_crval img = .error (.keyError "CRVAL1") := by
  unfold get_keywords_crval
  rw [h]

theorem get_rotation_and_scale_some {hd : FitsHeader} {w : WcsInfo}
    (h : hd.wcs = some w) :
    get_rotation_and_scale hd = .ok (w.rot, w.cdelt1, w.cdelt2) := by
  unfold get_rotation_and_scale
  rw [h]

/-- The body of `mosaic` for a non-empty item list, written as explicit
binds; definitionally equal to the `do` block of `mosaic`
(`mosaic_eq_body` below is proved by `rfl`). -/
def mosaicBody (env : Env) (it0 : Item) (rest : List Item)
    (fov_deg : Option ℚ) : M AstroImage :=
  resolveItem0 env it0 >>= fun r0 =>
  liftE (get_keywords_crval r0.1) >>= fun rd =>
  emit .getRotationAndScale >>= fun _ =>
  liftE (get_rotation_and_scale r0.1.header) >>= fun rcc =>
  emit (.createBlank rd.1 rd.2 fov_deg |rcc.2.1| rcc.1
    (np_sign rcc.2.1, np_sign rcc.2.2)) >>= fun _ =>
  liftE (create_blank_image rd.1 rd.2 fov_deg |rcc.2.1| rcc.1
    (np_sign rcc.2.1, np_sign rcc.2.2)) >>= fun img_mosaic =>
  emit .getRotationAndScale >>= fun _ =>
  liftE (get_rotation_and_scale img_mosaic.header) >>= fun _ =>
  emit (.inlineCall img_mosaic.objId [r0.1.name] (some fov_deg.isNone)) >>= fun _ =>
  liftE (mosaic_inline img_mosaic [r0.1] fov_deg.isNone) >>= fun r1 =>
  mosaicLoop env r1.1 rest

theorem mosaic_eq_body (env : Env) (it0 : Item) (rest : List Item)
    (fov : Option ℚ) : mosaic env (it0 :: rest) fov = mosaicBody env it0 rest fov := rfl

/-- Running `mosaic` when everything up to the loop succeeds: the run
continues into the loop over the remaining items, with the canvas the
allocator returned (as mutated by inlining item 0) and the trace built
so far. -/
theorem mosaic_eval_loop {env : Env} {it0 : Item} (rest : List Item)
    {fov : Option ℚ} {image0 : AstroImage} {n0 : String} {w : WcsInfo}
    {canvas c1 : AstroImage} {pls : List Placement}
    (hres : resolveItem0 env it0 [] = (.ok (image0, n0), item0LoadEvents it0))
    (hw : image0.header.wcs = some w)
    (hcr : create_blank_image w.crval1 w.crval2 fov |w.cdelt1| w.rot
      (np_sign w.cdelt1, np_sign w.cdelt2) = .ok canvas)
    (hin : mosaic_inline canvas [image0] fov.isNone = .ok (c1, pls)) :
    mosaic env (it0 :: rest) fov [] =
      mosaicLoop env c1 rest (item0LoadEvents it0 ++
        [Ev.getRotationAndScale,
         Ev.createBlank w.crval1 w.crval2 fov |w.cdelt1| w.rot
           (np_sign w.cdelt1, np_sign w.cdelt2),
         Ev.getRotationAndScale,
         Ev.inlineCall canvas.objId [image0.name] (some fov.isNone)]) := by
  obtain ⟨hobj, cwcs, hcw⟩ := create_blank_image_ok hcr
  rw [mosaic_eq_body]
  unfold mosaicBody
  rw [M_bind_ok _ hres]
  rw [M_bind_ok _ (by rw [liftE_eq, get_keywords_crval_some hw])]
  beta_reduce
  rw [M_bind_ok _ (emit_eq _ _)]
  rw [M_bind_ok _ (by rw [liftE_eq, get_rotation_and_scale_some hw])]
  beta_reduce
  rw [M_bind_ok _ (emit_eq _ _)]
  rw [M_bind_ok _ (by rw [liftE_eq, hcr])]
  beta_reduce
  rw [M_bind_ok _ (emit_eq _ _)]
  rw [M_bind_ok _ (by rw [liftE_eq, get_rotation_and_scale_some hcw])]
  beta_reduce
  rw [M_bind_ok _ (emit_eq _ _)]
  rw [M_bind_ok _ (by rw [liftE_eq, hin])]
  beta_reduce
  simp [List.append_assoc]

theorem mosaic_nil (env : Env) (fov : Option ℚ) (t0 : List Ev) :
    mosaic env [] fov t0 = (.error .indexError, t0) := rfl

theorem mosaic_eval_res_error {env : Env} {it0 : Item} (rest : List Item)
    {fov : Option ℚ} {e : PyError} {tr : List Ev}
    (hres : resolveItem0 env it0 [] = (.error e, tr)) :
    mosaic env (it0 :: rest) fov [] = (.error e, tr) := by
  rw [mosaic_eq_body]
  unfold mosaicBody
  rw [M_bind_error _ hres]

theorem mosaic_eval_wcs_none {env : Env} {it0 : Item} (rest : List Item)
    {fov : Option ℚ} {image0 : AstroImage} {n0 : String}
    (hres : resolveItem0 env it0 [] = (.ok (image0, n0), item0LoadEvents it0))
    (hw : image0.header.wcs = none) :
    mosaic env (it0 :: rest) fov [] =
      (.error (.keyError "CRVAL1"), item0LoadEvents it0) := by
  rw [mosaic_eq_body]
  unfold mosaicBody
  rw [M_bind_ok _ hres]
  rw [M_bind_error _ (by rw [liftE_eq, get_keywords_crval_none hw])]

/-- The trace of a run that reached the allocator call. -/
def preTrace (it0 : Item) (fov : Option ℚ) (w : WcsInfo) : List Ev :=
  item0LoadEvents it0 ++
    [Ev.getRotationAndScale,
     Ev.createBlank w.crval1 w.crval2 fov |w.cdelt1| w.rot
       (np_sign w.cdelt1, np_sign w.cdelt2)]

/-- The trace of a run that reached the item-0 inline call. -/
def preTrace4 (it0 : Item) (fov : Option ℚ) (w : WcsInfo)
    (canvas image0 : AstroImage) : List Ev :=
  preTrace it0 fov w ++
    [Ev.getRotationAndScale,
     Ev.inlineCall canvas.objId [image0.name] (some fov.isNone)]

theorem mosaic_eval_alloc_error {env : Env} {it0 : Item} (rest : List Item)
    {fov : Option ℚ} {image0 : AstroImage} {n0 : String} {w : WcsInfo}
    {e : PyError}
    (hres : resolveItem0 env it0 [] = (.ok (image0, n0), item0LoadEvents it0))
    (hw : image0.header.wcs = some w)
    (hcr : create_blank_image w.crval1 w.crval2 fov |w.cdelt1| w.rot
      (np_sign w.cdelt1, np_sign w.cdelt2) = .error e) :
    mosaic env (it0 :: rest) fov [] = (.error e, preTrace it0 fov w) := by
  rw [mosaic_eq_body]
  unfold mosaicBody
  rw [M_bind_ok _ hres]
  rw [M_bind_ok _ (by rw [liftE_eq, get_keywords_crval_some hw])]
  beta_reduce
  rw [M_bind_ok _ (emit_eq _ _)]
  rw [M_bind_ok _ (by rw [liftE_eq, get_rotation_and_scale_some hw])]
  beta_reduce
  rw [M_bind_ok _ (emit_eq _ _)]
  rw [M_bind_error _ (by rw [liftE_eq, hcr])]
  simp [preTrace, List.append_assoc]

theorem mosaic_eval_inline_error {env : Env} {it0 : Item} (rest : List Item)
    {fov : Option ℚ} {image0 : AstroImage} {n0 : String} {w : WcsInfo}
    {canvas : AstroImage} {e : PyError}
    (hres : resolveItem0 env it0 [] = (.ok (image0, n0), item0LoadEvents it0))
    (hw : image0.header.wcs = some w)
    (hcr : create_blank_image w.crval1 w.crval2 fov |w.cdelt1| w.rot
      (np_sign w.cdelt1, np_sign w.cdelt2) = .ok canvas)
    (hin : mosaic_inline canvas [image0] fov.isNone = .error e) :
    mosaic env (it0 :: rest) fov [] =
      (.error e, preTrace4 it0 fov w canvas image0) := by
  obtain ⟨hobj, cwcs, hcw⟩ := create_blank_image_ok hcr
  rw [mosaic_eq_body]
  unfold mosaicBody
  rw [M_bind_ok _ hres]
  rw [M_bind_ok _ (by rw [liftE_eq, get_keywords_crval_some hw])]
  beta_reduce
  rw [M_bind_ok _ (emit_eq _ _)]
  rw [M_bind_ok _ (by rw [liftE_eq, get_rotation_and_scale_some hw])]
  beta_reduce
  rw [M_bind_ok _ (emit_eq _ _)]
  rw [M_bind_ok _ (by rw [liftE_eq, hcr])]
  beta_reduce
  rw [M_bind_ok _ (emit_eq _ _)]
  rw [M_bind_ok _ (by rw [liftE_eq, get_rotation_and_scale_some hcw])]
  beta_reduce
  rw [M_bind_ok _ (emit_eq _ _)]
  rw [M_bind_error _ (by rw [liftE_eq, hin])]
  simp [preTrace4, preTrace, List.append_assoc]

/-- Case analysis of a `mosaic` run after item 0 has resolved: either
the run stopped at one of the failure points before the loop (with the
exact partial trace), or it reached the loop over the remaining items
with the exact prefix trace. -/
theorem mosaic_resolved_cases {env : Env} {it0 : Item} {rest : List Item}
    {fov : Option ℚ} {r : Except PyError AstroImage} {t : List Ev}
    {image0 : AstroImage} {n0 : String}
    (hres : resolveItem0 env it0 [] = (.ok (image0, n0), item0LoadEvents it0))
    (h : mosaic env (it0 :: rest) fov [] = (r, t)) :
    (image0.header.wcs = none ∧ r = .error (.keyError "CRVAL1") ∧
      t = item0LoadEvents it0) ∨
    (∃ w, image0.header.wcs = some w ∧
      ((∃ e, create_blank_image w.crval1 w.crval2 fov |w.cdelt1| w.rot
          (np_sign w.cdelt1, np_sign w.cdelt2) = .error e ∧
        r = .error e ∧ t = preTrace it0 fov w) ∨
       (∃ canvas, create_blank_image w.crval1 w.crval2 fov |w.cdelt1| w.rot
          (np_sign w.cdelt1, np_sign w.cdelt2) = .ok canvas ∧
        ((∃ e, mosaic_inline canvas [image0] fov.isNone = .error e ∧
          r = .error e ∧ t = preTrace4 it0 fov w canvas image0) ∨
         (∃ c1 pls, mosaic_inline canvas [image0] fov.isNone = .ok (c1, pls) ∧
          mosaicLoop env c1 rest (preTrace4 it0 fov w canvas image0) = (r, t)))))) := by
  cases hw : image0.header.wcs with
  | none =>
    left
    rw [mosaic_eval_wcs_none rest hres hw] at h
    rw [Prod.mk.injEq] at h
    obtain ⟨h1, h2⟩ := h
    exact ⟨rfl, h1.symm, h2.symm⟩
  | some w =>
    right
    refine ⟨w, rfl, ?_⟩
    cases hcr : create_blank_image w.crval1 w.crval2 fov |w.cdelt1| w.rot
        (np_sign w.cdelt1, np_sign w.cdelt2) with
    | error e =>
      left
      rw [mosaic_eval_alloc_error rest hres hw hcr] at h
      rw [Prod.mk.injEq] at h
      obtain ⟨h1, h2⟩ := h
      exact ⟨e, rfl, h1.symm, h2.symm⟩
    | ok canvas =>
      right
      refine ⟨canvas, rfl, ?_⟩
      cases hin : mosaic_inline canvas [image0] fov.isNone with
      | error e =>
        left
        rw [mosaic_eval_inline_error rest hres hw hcr hin] at h
        rw [Prod.mk.injEq] at h
        obtain ⟨h1, h2⟩ := h
        exact ⟨e, rfl, h1.symm, h2.symm⟩
      | ok cp =>
        right
        obtain ⟨c1, pls⟩ := cp
        refine ⟨c1, pls, rfl, ?_⟩
        rw [mosaic_eval_loop rest hres hw hcr hin] at h
        rw [show mosaicLoop env c1 rest (preTrace4 it0 fov w canvas image0) =
          mosaicLoop env c1 rest (item0LoadEvents it0 ++
            [Ev.getRotationAndScale,
             Ev.createBlank w.crval1 w.crval2 fov |w.cdelt1| w.rot
               (np_sign w.cdelt1, np_sign w.cdelt2),
             Ev.getRotationAndScale,
             Ev.inlineCall canvas.objId [image0.name] (some fov.isNone)])
          from by simp [preTrace4, preTrace, List.append_assoc]]
        exact h

/-- Complete case analysis of a `mosaic` run from the top. -/
theorem mosaic_run_cases {env : Env} {items : List Item} {fov : Option ℚ}
    {r : Except PyError AstroImage} {t : List Ev}
    (h : mosaic env items fov [] = (r, t)) :
    (items = [] ∧ r = .error .indexError ∧ t = []) ∨
    (∃ it0 rest, items = it0 :: rest ∧
      ((∃ p e, it0 = Item.path p ∧ env.load_data p = .error e ∧
        r = .error e ∧ t = [Ev.loadData p]) ∨
       (∃ image0 n0,
        resolveItem0 env it0 [] = (.ok (image0, n0), item0LoadEvents it0) ∧
        ((image0.header.wcs = none ∧ r = .error (.keyError "CRVAL1") ∧
          t = item0LoadEvents it0) ∨
         (∃ w, image0.header.wcs = some w ∧
          ((∃ e, create_blank_image w.crval1 w.crval2 fov |w.cdelt1| w.rot
              (np_sign w.cdelt1, np_sign w.cdelt2) = .error e ∧
            r = .error e ∧ t = preTrace it0 fov w) ∨
           (∃ canvas, create_blank_image w.crval1 w.crval2 fov |w.cdelt1| w.rot
              (np_sign w.cdelt1, np_sign w.cdelt2) = .ok canvas ∧
            ((∃ e, mosaic_inline canvas [image0] fov.isNone = .error e ∧
              r = .error e ∧ t = preTrace4 it0 fov w canvas image0) ∨
             (∃ c1 pls,
              mosaic_inline canvas [image0] fov.isNone = .ok (c1, pls) ∧
              mosaicLoop env c1 rest (preTrace4 it0 fov w canvas image0) =
                (r, t)))))))))) := by
  cases items with
  | nil =>
    left
    rw [mosaic_nil] at h
    rw [Prod.mk.injEq] at h
    exact ⟨rfl, h.1.symm, h.2.symm⟩
  | cons it0 rest =>
    right
    refine ⟨it0, rest, rfl, ?_⟩
    cases it0 with
    | image img =>
      right
      exact ⟨img, img.name.getD "image0", resolveItem0_image env img [],
        mosaic_resolved_cases (resolveItem0_image env img []) h⟩
    | path p =>
      cases hl : env.load_data p with
      | error e =>
        left
        rw [mosaic_eval_res_error rest (resolveItem0_path_error [] hl)] at h
        rw [Prod.mk.injEq] at h
        exact ⟨p, e, rfl, hl, h.1.symm, h.2.symm⟩
      | ok img =>
        right
        have hres : resolveItem0 env (Item.path p) [] =
            (.ok (img, p), item0LoadEvents (Item.path p)) := by
          rw [resolveItem0_path_ok [] hl]
          rfl
        exact ⟨img, p, hres, mosaic_resolved_cases hres h⟩

/-- Characterisation of every successful `mosaic` run: item 0 resolved,
its WCS was read, the canvas was allocated from it, item 0 was inlined
with the explicit expansion flag, every remaining item was an
already-loaded image, the returned canvas is the allocated object, and
the trace is exactly the pipeline in order. -/
theorem mosaic_ok_spec {env : Env} {items : List Item} {fov : Option ℚ}
    {c : AstroImage} {t : List Ev}
    (h : mosaic env items fov [] = (.ok c, t)) :
    ∃ it0 rest image0 n0 w canvas c1 pls,
      items = it0 :: rest ∧
      resolveItem0 env it0 [] = (.ok (image0, n0), item0LoadEvents it0) ∧
      image0.header.wcs = some w ∧
      create_blank_image w.crval1 w.crval2 fov |w.cdelt1| w.rot
        (np_sign w.cdelt1, np_sign w.cdelt2) = .ok canvas ∧
      mosaic_inline canvas [image0] fov.isNone = .ok (c1, pls) ∧
      c.objId = canvas.objId ∧
      (∀ it ∈ rest, ∃ img, it = Item.image img) ∧
      t = preTrace4 it0 fov w canvas image0 ++
        rest.map (fun it => Ev.inlineCall canvas.objId [(itemImage it).name] none) := by
  rcases mosaic_run_cases h with ⟨_, hr, _⟩ | ⟨it0, rest, hi, hcase⟩
  · cases hr
  rcases hcase with ⟨p, e, _, _, hr, _⟩ | ⟨image0, n0, hres, hcase⟩
  · cases hr
  rcases hcase with ⟨_, hr, _⟩ | ⟨w, hw, hcase⟩
  · cases hr
  rcases hcase with ⟨e, _, hr, _⟩ | ⟨canvas, hcr, hcase⟩
  · cases hr
  rcases hcase with ⟨e, _, hr, _⟩ | ⟨c1, pls, hin, hloop⟩
  · cases hr
  obtain ⟨⟨d, hd, hde⟩, hok⟩ :=
    mosaicLoop_spec env rest c1 (preTrace4 it0 fov w canvas image0) _ _ hloop
  obtain ⟨h1, h2, h3⟩ := hok c rfl
  have hc1 : c1.objId = canvas.objId := mosaic_inline_objId hin
  exact ⟨it0, rest, image0, n0, w, canvas, c1, pls, hi, hres, hw, hcr, hin,
    by rw [h1, hc1], h2, by rw [h3, hc1]⟩

/-- The body of `main_cli`, written as explicit binds; definitionally
equal to its `do` block. -/
def mainBody (env : Env) (options : Options) (args : List Item) : M Unit :=
  mosaic env args options.fov >>= fun img_mosaic =>
  match options.outfile with
  | none => M.pure ()
  | some outfile =>
      (if "io_fits" ∈ moduleGlobals then M.pure ()
       else M.throw (.nameError "io_fits")) >>= fun _ =>
      emit (.removeFile outfile) >>= fun _ =>
      emit (.saveAsFile outfile img_mosaic.objId)

theorem main_eq_body (env : Env) (options : Options) (args : List Item) :
    main_cli env options args = mainBody env options args := rfl

/-- When an output file is requested and the mosaic itself succeeded,
`main` stops with `NameError` at `io_fits.use('astropy')`, before any
file is removed or written. -/
theorem main_cli_outfile_error {env : Env} {opts : Options} {args : List Item}
    {c : AstroImage} {t2 : List Ev} {p : String}
    (ho : opts.outfile = some p)
    (hm : mosaic env args opts.fov [] = (.ok c, t2)) :
    runMain env opts args = (.error (.nameError "io_fits"), t2) := by
  show main_cli env opts args [] = _
  rw [main_eq_body]
  unfold mainBody
  rw [M_bind_ok _ hm]
  rw [ho]
  simp only []
  rw [M_bind_error _ (by rw [if_neg io_fits_not_global]; exact M_throw_eq _ _)]

/-- `np.sign x * |x| = x` over the rationals. -/
theorem np_sign_mul_abs (x : ℚ) : np_sign x * |x| = x := by
  unfold np_sign
  rcases lt_trichotomy 0 x with h | h | h
  · rw [if_pos h, abs_of_pos h, one_mul]
  · rw [← h]; simp
  · rw [if_neg (not_lt.2 (le_of_lt h)), if_pos h, abs_of_neg h]
    ring

theorem mem_item0LoadEvents {it0 : Item} {e : Ev}
    (h : e ∈ item0LoadEvents it0) : ∃ p, e = Ev.loadData p := by
  cases it0 with
  | image img => cases h
  | path p =>
    simp only [item0LoadEvents, List.mem_singleton] at h
    exact ⟨p, h⟩

/-- The `allow_expand` arguments of the inline calls recorded in a
trace, in order; `none` marks a call that passed no such argument. -/
def inlineArgs : List Ev → List (Option Bool)
  | [] => []
  | Ev.inlineCall _ _ b :: rest => b :: inlineArgs rest
  | _ :: rest => inlineArgs rest

theorem inlineArgs_append (a b : List Ev) :
    inlineArgs (a ++ b) = inlineArgs a ++ inlineArgs b := by
  induction a with
  | nil => rfl
  | cons e a ih => cases e <;> simp [inlineArgs, ih]

theorem inlineArgs_item0 (it0 : Item) :
    inlineArgs (item0LoadEvents it0) = [] := by
  cases it0 <;> rfl

theorem inlineArgs_preTrace4 (it0 : Item) (fov : Option ℚ) (w : WcsInfo)
    (canvas image0 : AstroImage) :
    inlineArgs (preTrace4 it0 fov w canvas image0) = [some fov.isNone] := by
  simp [preTrace4, preTrace, inlineArgs_append, inlineArgs_item0, inlineArgs]

theorem inlineArgs_all_none {d : List Ev} {q : Nat}
    (hd : ∀ e ∈ d, ∃ nm, e = Ev.inlineCall q nm none) :
    ∀ a ∈ inlineArgs d, a = none := by
  induction d with
  | nil => intro a ha; cases ha
  | cons e d ih =>
    intro a ha
    obtain ⟨nm, rfl⟩ := hd e (List.mem_cons_self e d)
    simp only [inlineArgs] at ha
    rcases List.mem_cons.1 ha with h1 | h1
    · exact h1
    · exact ih (fun x hx => hd x (List.mem_cons_of_mem _ hx)) a h1

/-- Recognise a canvas-allocation event. -/
def isCreateBlank : Ev → Bool
  | Ev.createBlank _ _ _ _ _ _ => true
  | _ => false

/-- Recognise a file-write event. -/
def isSaveAsFile : Ev → Bool
  | Ev.saveAsFile _ _ => true
  | _ => false

/-- Recognise a file-removal event. -/
def isRemoveFile : Ev → Bool
  | Ev.removeFile _ => true
  | _ => false

theorem countP_isCreateBlank_preTrace4 (it0 : Item) (fov : Option ℚ)
    (w : WcsInfo) (canvas image0 : AstroImage) :
    (preTrace4 it0 fov w canvas image0).countP isCreateBlank = 1 := by
  cases it0 <;>
    simp [preTrace4, preTrace, item0LoadEvents, List.countP_append,
      List.countP_cons, isCreateBlank]

/-- The canvas produced by mosaicking `imgA` alone with a 1-degree
field of view: the allocator's 1×1 grid with `imgA`'s pixel copied in
(its WCS coincides with `wcsA`). -/
def mosaicCanvasA : AstroImage :=
  { objId := 0, name := some "mosaic", header := { wcs := some wcsA }, data := [[5]] }

/-- The canvas after also inlining `imgB` (same footprint: last write
wins, pixel value 7). -/
def mosaicCanvasB : AstroImage :=
  { objId := 0, name := some "mosaic", header := { wcs := some wcsA }, data := [[7]] }

/-- The trace of mosaicking `[imgA]` with `fov_deg = 1`. -/
def traceA : List Ev :=
  [.getRotationAndScale, .createBlank 10 20 (some 1) 1 0 (1, 1),
   .getRotationAndScale, .inlineCall 0 [some "a"] (some false)]

/-- Test image `c`: one pixel at sky reference (12, 20) — two degrees
east of `imgA`, hence off a 1×1 canvas centred at (10, 20). -/
def imgC : AstroImage :=
  { objId := 3, name := some "c",
    header := { wcs := some { crval1 := 12, crval2 := 20, crpix1 := 1/2,
                              crpix2 := 1/2, cdelt1 := 1, cdelt2 := 1,
                              rot := 0 } },
    data := [[9]] }

/-! ### Claims -/

/-- C1 (counterexample): with item 0 an already-loaded image with
extractable WCS and item 1 a path whose load would fail (missing
file), `mosaic` does not return a mosaic canvas: the run aborts with an
error (in fact `NameError: io_fits`), contradicting the claim that a
load failure on a subsequent item is caught and the run never aborts. -/
theorem mosaic_c1_counterexample :
    (runMosaic envT [Item.image imgA, Item.path "b.fits"] (some 1)).1 =
      .error (.nameError "io_fits") ∧
    ∀ c : AstroImage,
      (runMosaic envT [Item.image imgA, Item.path "b.fits"] (some 1)).1 ≠ .ok c := by
  have h : (runMosaic envT [Item.image imgA, Item.path "b.fits"] (some 1)).1 =
      .error (.nameError "io_fits") := by with_unfolding_all rfl
  refine ⟨h, fun c hc => ?_⟩
  rw [h] at hc
  cases hc

/-- C1 (amended): a failure while resolving a subsequent item is not
caught — it aborts the run.  Consequently a `mosaic` run completes
successfully only when every item after the first is an already-loaded
image: no load of a later item is ever survived (or even attempted,
since resolving a later path raises `NameError: io_fits`). -/
theorem mosaic_c1_later_failure_aborts {env : Env} {items : List Item}
    {fov : Option ℚ} {c : AstroImage} {t : List Ev}
    (h : runMosaic env items fov = (.ok c, t)) :
    ∀ it ∈ items.drop 1, ∃ img, it = Item.image img := by
  obtain ⟨it0, rest, image0, n0, w, canvas, c1, pls, hi, -, -, -, -, -, h2, -⟩ :=
    mosaic_ok_spec h
  subst hi
  simpa using h2

/-- C1 (witness for the amended claim): on a concrete successful run,
the amended claim instantiated at the trailing item `imgB`. -/
theorem mosaic_c1_witness :
    ∃ img, Item.image imgB = Item.image img :=
  mosaic_c1_later_failure_aborts
    (show runMosaic envT [Item.image imgA, Item.image imgB] (some 1) =
      (.ok mosaicCanvasB, traceA ++ [Ev.inlineCall 0 [some "b"] none])
      from by with_unfolding_all rfl)
    (Item.image imgB) (by simp)

/-- C2: every successful `mosaic` run on a non-empty item list follows
exactly the claimed pipeline: resolve item 0 (loading it iff it is a
path), extract its WCS rotation/scale, allocate the blank canvas once
from item 0's CRVAL1/CRVAL2, the field of view, |cdelt1|, the rotation
and the axis signs, inline item 0, then resolve and inline each
remaining item in the given order — the trace is exactly these calls in
this order, one inline per item. -/
theorem mosaic_c2_pipeline {env : Env} {items : List Item} {fov : Option ℚ}
    {c : AstroImage} {t : List Ev}
    (h : runMosaic env items fov = (.ok c, t)) :
    ∃ it0 rest image0 n0 w canvas c1 pls,
      items = it0 :: rest ∧
      resolveItem0 env it0 [] = (.ok (image0, n0), item0LoadEvents it0) ∧
      image0.header.wcs = some w ∧
      create_blank_image w.crval1 w.crval2 fov |w.cdelt1| w.rot
        (np_sign w.cdelt1, np_sign w.cdelt2) = .ok canvas ∧
      mosaic_inline canvas [image0] fov.isNone = .ok (c1, pls) ∧
      c.objId = canvas.objId ∧
      (∀ it ∈ rest, ∃ img, it = Item.image img) ∧
      t = preTrace4 it0 fov w canvas image0 ++
        rest.map (fun it => Ev.inlineCall canvas.objId [(itemImage it).name] none) :=
  mosaic_ok_spec h

/-- C2 (witness): the pipeline characterisation instantiated on a
concrete two-image run. -/
theorem mosaic_c2_witness :
    ∃ it0 rest image0 n0 w canvas c1 pls,
      ([Item.image imgA, Item.image imgB] : List Item) = it0 :: rest ∧
      resolveItem0 envT it0 [] = (.ok (image0, n0), item0LoadEvents it0) ∧
      image0.header.wcs = some w ∧
      create_blank_image w.crval1 w.crval2 (some 1) |w.cdelt1| w.rot
        (np_sign w.cdelt1, np_sign w.cdelt2) = .ok canvas ∧
      mosaic_inline canvas [image0] (some (1:ℚ)).isNone = .ok (c1, pls) ∧
      mosaicCanvasB.objId = canvas.objId ∧
      (∀ it ∈ rest, ∃ img, it = Item.image img) ∧
      traceA ++ [Ev.inlineCall 0 [some "b"] none] =
        preTrace4 it0 (some 1) w canvas image0 ++
        rest.map (fun it => Ev.inlineCall canvas.objId [(itemImage it).name] none) :=
  mosaic_c2_pipeline (by with_unfolding_all rfl)

/-- C3: the name `io_fits` is not bound in the module's globals; the
loop over `itemlist[1:]` raises `NameError: io_fits` the moment it
reaches a path item (its trace gains nothing); consequently no `mosaic`
run with a path anywhere after item 0 can return a canvas; and `main`
hits the same unbound name when an output file is given, even when the
mosaic itself succeeded. -/
theorem mosaic_c3_io_fits_unbound :
    ("io_fits" ∉ moduleGlobals) ∧
    (∀ (env : Env) (canvas : AstroImage) (p : String) (post : List Item)
      (t0 : List Ev),
      mosaicLoop env canvas (Item.path p :: post) t0 =
        (.error (.nameError "io_fits"), t0)) ∧
    (∀ (env : Env) (items : List Item) (fov : Option ℚ) (p : String)
      (c : AstroImage),
      Item.path p ∈ items.drop 1 → (runMosaic env items fov).1 ≠ .ok c) ∧
    (∀ (env : Env) (opts : Options) (args : List Item) (p : String)
      (c : AstroImage) (t2 : List Ev),
      opts.outfile = some p → mosaic env args opts.fov [] = (.ok c, t2) →
      (runMain env opts args).1 = .error (.nameError "io_fits")) := by
  refine ⟨io_fits_not_global, ?_, ?_, ?_⟩
  · intro env canvas p post t0
    rw [mosaicLoop_cons, loopBody_path]
  · intro env items fov p c hmem hc
    cases hr : runMosaic env items fov with
    | mk r1 t1 =>
      rw [hr] at hc
      simp only [] at hc
      subst hc
      obtain ⟨it0, rest, image0, n0, w, canvas, c1, pls, hi, -, -, -, -, -, h2, -⟩ :=
        mosaic_ok_spec hr
      subst hi
      simp only [List.drop_succ_cons, List.drop_zero] at hmem
      obtain ⟨img, himg⟩ := h2 _ hmem
      cases himg
  · intro env opts args p c t2 ho hm
    rw [main_cli_outfile_error ho hm]

/-- C3 (witness): a run with a path at index 1 cannot return a canvas,
and a `main` run with an output file ends in `NameError: io_fits`. -/
theorem mosaic_c3_witness :
    (runMosaic envT [Item.image imgA, Item.path "c.fits"] (some 1)).1 ≠
      .ok mosaicCanvasA ∧
    (runMain envT { fov := some 1, outfile := some "o.fits" }
      [Item.image imgA]).1 = .error (.nameError "io_fits") :=
  ⟨mosaic_c3_io_fits_unbound.2.2.1 envT [Item.image imgA, Item.path "c.fits"]
      (some 1) "c.fits" mosaicCanvasA (by decide),
   mosaic_c3_io_fits_unbound.2.2.2 envT
      { fov := some 1, outfile := some "o.fits" } [Item.image imgA] "o.fits"
      mosaicCanvasA traceA rfl (by with_unfolding_all rfl)⟩

/-- C4: with `fov_deg = none` the allocator produces the minimal 1×1
placeholder canvas; and in every `mosaic` run, every inline call that
passes an explicit expansion flag passes exactly `fov_deg.isNone` —
true on the unbounded path, false when a field of view is given. -/
theorem mosaic_c4_expand_flag :
    (∀ (ra dec px rot : ℚ) (cb : ℚ × ℚ), ∃ cv,
      create_blank_image ra dec none px rot cb = .ok cv ∧
      cv.data = [[(0 : ℚ)]]) ∧
    (∀ (env : Env) (items : List Item) (fov : Option ℚ)
      (r : Except PyError AstroImage) (t : List Ev) (id : Nat)
      (nm : List (Option String)) (b : Bool),
      runMosaic env items fov = (r, t) →
      Ev.inlineCall id nm (some b) ∈ t → b = fov.isNone) := by
  constructor
  · intro ra dec px rot cb
    exact ⟨_, rfl, rfl⟩
  · intro env items fov r t id nm b h hmem
    rcases mosaic_run_cases h with ⟨-, -, ht⟩ | ⟨it0, rest, -, hcase⟩
    · subst ht; cases hmem
    rcases hcase with ⟨p, e, -, -, -, ht⟩ | ⟨image0, n0, -, hcase⟩
    · subst ht
      simp only [List.mem_singleton] at hmem
      cases hmem
    rcases hcase with ⟨-, -, ht⟩ | ⟨w, hw, hcase⟩
    · subst ht
      obtain ⟨p, hp⟩ := mem_item0LoadEvents hmem
      cases hp
    rcases hcase with ⟨e, -, -, ht⟩ | ⟨canvas, hcr, hcase⟩
    · subst ht
      rcases List.mem_append.1 hmem with h1 | h1
      · obtain ⟨p, hp⟩ := mem_item0LoadEvents h1
        cases hp
      · rcases List.mem_cons.1 h1 with h2 | h2
        · cases h2
        · simp only [List.mem_singleton] at h2
          cases h2
    rcases hcase with ⟨e, -, -, ht⟩ | ⟨c1, pls, hin, hloop⟩
    · subst ht
      rcases List.mem_append.1 hmem with h1 | h1
      · rcases List.mem_append.1 h1 with h2 | h2
        · obtain ⟨p, hp⟩ := mem_item0LoadEvents h2
          cases hp
        · rcases List.mem_cons.1 h2 with h3 | h3
          · cases h3
          · simp only [List.mem_singleton] at h3
            cases h3
      · rcases List.mem_cons.1 h1 with h2 | h2
        · cases h2
        · simp only [List.mem_singleton] at h2
          injection h2 with h3 h4 h5
          exact Option.some.inj h5
    · obtain ⟨⟨d, hd, hde⟩, -⟩ :=
        mosaicLoop_spec env rest c1 (preTrace4 it0 fov w canvas image0) r t hloop
      subst hd
      rcases List.mem_append.1 hmem with h1 | h1
      · rcases List.mem_append.1 h1 with h2 | h2
        · rcases List.mem_append.1 h2 with h3 | h3
          · obtain ⟨p, hp⟩ := mem_item0LoadEvents h3
            cases hp
          · rcases List.mem_cons.1 h3 with h4 | h4
            · cases h4
            · simp only [List.mem_singleton] at h4
              cases h4
        · rcases List.mem_cons.1 h2 with h3 | h3
          · cases h3
          · simp only [List.mem_singleton] at h3
            injection h3 with h4 h5 h6
            exact Option.some.inj h6
      · obtain ⟨nm2, hnm⟩ := hde _ h1
        rw [hnm] at h1
        cases hnm.symm.trans rfl

/-- C4 (witness): the placeholder-allocation fact at concrete
arguments, and the flag fact on a concrete unbounded (`fov = none`)
run, whose item-0 inline call carries `some true`. -/
theorem mosaic_c4_witness :
    (∃ cv, create_blank_image 10 20 none 1 0 (1, 1) = .ok cv ∧
      cv.data = [[(0 : ℚ)]]) ∧
    true = (none : Option ℚ).isNone :=
  ⟨mosaic_c4_expand_flag.1 10 20 1 0 (1, 1),
   mosaic_c4_expand_flag.2 envT [Item.image imgA] none (.ok mosaicCanvasA)
     [.getRotationAndScale, .createBlank 10 20 none 1 0 (1, 1),
      .getRotationAndScale, .inlineCall 0 [some "a"] (some true)]
     0 [some "a"] true (by with_unfolding_all rfl) (by decide)⟩

/-- C5: when the compositor is called with `allow_expand = false` on an
image whose computed extent does not fit the canvas, it signals
`OutOfBoundsError` for that image and the canvas — pixel grid and
header alike — is returned exactly as it was (the in-place state after
the failed call is the untouched input canvas, and no placement record
is appended). -/
theorem mosaic_c5_oob_unmodified {c img : AstroImage} {x y : Int}
    (hp : placement_offset c img = .ok (x, y))
    (hb : inBounds c img x y = false) :
    mosaic_inline_state c [img] false = (c, [], some PyError.outOfBoundsError) ∧
    mosaic_inline c [img] false = .error PyError.outOfBoundsError := by
  have h1 : inline_one c img false = .error .outOfBoundsError := by
    unfold inline_one
    rw [hp]
    simp [hb]
  constructor
  · unfold mosaic_inline_state
    rw [h1]
  · unfold mosaic_inline mosaic_inline_state
    rw [h1]

/-- C5 (witness): `imgC` lies two degrees east of the 1×1 canvas
`mosaicCanvasA` and does not fit; the failed call leaves the canvas
bit-identical. -/
theorem mosaic_c5_witness :
    mosaic_inline_state mosaicCanvasA [imgC] false =
      (mosaicCanvasA, [], some PyError.outOfBoundsError) ∧
    mosaic_inline mosaicCanvasA [imgC] false =
      .error PyError.outOfBoundsError :=
  mosaic_c5_oob_unmodified
    (show placement_offset mosaicCanvasA imgC = .ok (2, 0)
      from by with_unfolding_all rfl)
    (show inBounds mosaicCanvasA imgC 2 0 = false
      from by with_unfolding_all rfl)

/-- C6: extracting rotation and scale from a valid header, allocating
a canvas from them (scale magnitude `|cdelt1|`, axis signs as
`cdbase`), and extracting from the allocated canvas's own header
returns exactly the rotation and the per-axis scales that were used to
build it (`cdbase_i * |cdelt1|`); for the first axis that is exactly
the original `cdelt1`.  Over `ℚ` the round trip is exact, which is
within any floating-point tolerance. -/
theorem mosaic_c6_roundtrip {hd : FitsHeader} {w : WcsInfo} (ra dec : ℚ)
    {fov : Option ℚ} {canvas : AstroImage}
    (hw : hd.wcs = some w)
    (hall : create_blank_image ra dec fov |w.cdelt1| w.rot
      (np_sign w.cdelt1, np_sign w.cdelt2) = .ok canvas) :
    get_rotation_and_scale hd = .ok (w.rot, w.cdelt1, w.cdelt2) ∧
    get_rotation_and_scale canvas.header =
      .ok (w.rot, np_sign w.cdelt1 * |w.cdelt1|,
        np_sign w.cdelt2 * |w.cdelt1|) ∧
    np_sign w.cdelt1 * |w.cdelt1| = w.cdelt1 := by
  obtain ⟨-, q, hq⟩ := create_blank_image_ok hall
  exact ⟨get_rotation_and_scale_some hw,
    by rw [get_rotation_and_scale_some hq],
    np_sign_mul_abs _⟩

/-- C6 (witness): the round trip at a concrete valid header and a
1-degree field of view. -/
theorem mosaic_c6_witness :
    get_rotation_and_scale { wcs := some wcsA } =
      .ok (wcsA.rot, wcsA.cdelt1, wcsA.cdelt2) ∧
    get_rotation_and_scale
      ({ objId := 0, name := some "mosaic",
         header := { wcs := some wcsA }, data := [[0]] } : AstroImage).header =
      .ok (wcsA.rot, np_sign wcsA.cdelt1 * |wcsA.cdelt1|,
        np_sign wcsA.cdelt2 * |wcsA.cdelt1|) ∧
    np_sign wcsA.cdelt1 * |wcsA.cdelt1| = wcsA.cdelt1 :=
  mosaic_c6_roundtrip 10 20 rfl
    (show create_blank_image 10 20 (some 1) |wcsA.cdelt1| wcsA.rot
        (np_sign wcsA.cdelt1, np_sign wcsA.cdelt2) =
      .ok { objId := 0, name := some "mosaic",
            header := { wcs := some wcsA }, data := [[0]] }
      from by with_unfolding_all rfl)

/-- C7: in every `mosaic` run the explicit expansion flag is passed
only to the item-0 inline call: the sequence of `allow_expand`
arguments over the run's inline calls is either empty or a single
explicit flag (item 0) followed by calls passing no flag at all — so
items 1..N are placed under the compositor's default expansion policy
regardless of whether a field of view was given. -/
theorem mosaic_c7_default_expand {env : Env} {items : List Item}
    {fov : Option ℚ} {r : Except PyError AstroImage} {t : List Ev}
    (h : runMosaic env items fov = (r, t)) :
    inlineArgs t = [] ∨
    (∃ restArgs, inlineArgs t = some fov.isNone :: restArgs ∧
      ∀ a ∈ restArgs, a = none) := by
  rcases mosaic_run_cases h with ⟨-, -, ht⟩ | ⟨it0, rest, -, hcase⟩
  · subst ht; left; rfl
  rcases hcase with ⟨p, e, -, -, -, ht⟩ | ⟨image0, n0, -, hcase⟩
  · subst ht; left; rfl
  rcases hcase with ⟨-, -, ht⟩ | ⟨w, hw, hcase⟩
  · subst ht; left; exact inlineArgs_item0 it0
  rcases hcase with ⟨e, -, -, ht⟩ | ⟨canvas, hcr, hcase⟩
  · subst ht
    left
    simp [preTrace, inlineArgs_append, inlineArgs_item0, inlineArgs]
  rcases hcase with ⟨e, -, -, ht⟩ | ⟨c1, pls, hin, hloop⟩
  · subst ht
    right
    exact ⟨[], inlineArgs_preTrace4 it0 fov w canvas image0,
      fun a ha => absurd ha (List.not_mem_nil a)⟩
  · obtain ⟨⟨d, hd, hde⟩, -⟩ :=
      mosaicLoop_spec env rest c1 (preTrace4 it0 fov w canvas image0) r t hloop
    subst hd
    right
    refine ⟨inlineArgs d, ?_, inlineArgs_all_none hde⟩
    rw [inlineArgs_append, inlineArgs_preTrace4]
    rfl

/-- C7 (witness): on a concrete two-image run with a field of view
given, the inline-argument sequence is `[some false, none]`. -/
theorem mosaic_c7_witness :
    inlineArgs (traceA ++ [Ev.inlineCall 0 [some "b"] none]) = [] ∨
    (∃ restArgs,
      inlineArgs (traceA ++ [Ev.inlineCall 0 [some "b"] none]) =
        some (some (1:ℚ)).isNone :: restArgs ∧
      ∀ a ∈ restArgs, a = none) :=
  mosaic_c7_default_expand
    (show runMosaic envT [Item.image imgA, Item.image imgB] (some 1) =
      (.ok mosaicCanvasB, traceA ++ [Ev.inlineCall 0 [some "b"] none])
      from by with_unfolding_all rfl)

/-- C8: every canvas-allocation call recorded in a `mosaic` run uses
item 0's extracted WCS: the pixel scale is the single magnitude
`|cdelt1|` (even when the axis scales differ), and the axis-sign
convention is `cdbase = (sign cdelt1, sign cdelt2)` with the per-axis
signs preserved from item 0's header; reference position, rotation and
field of view are passed through likewise. -/
theorem mosaic_c8_cdbase {env : Env} {items : List Item} {fov : Option ℚ}
    {r : Except PyError AstroImage} {t : List Ev} {ra dec : ℚ}
    {f : Option ℚ} {px rot : ℚ} {cb : ℚ × ℚ}
    (h : runMosaic env items fov = (r, t))
    (hmem : Ev.createBlank ra dec f px rot cb ∈ t) :
    ∃ it0 rest image0 n0 w,
      items = it0 :: rest ∧
      resolveItem0 env it0 [] = (.ok (image0, n0), item0LoadEvents it0) ∧
      image0.header.wcs = some w ∧
      px = |w.cdelt1| ∧ cb = (np_sign w.cdelt1, np_sign w.cdelt2) ∧
      ra = w.crval1 ∧ dec = w.crval2 ∧ rot = w.rot ∧ f = fov := by
  rcases mosaic_run_cases h with ⟨-, -, ht⟩ | ⟨it0, rest, hi, hcase⟩
  · subst ht; cases hmem
  rcases hcase with ⟨p, e, -, -, -, ht⟩ | ⟨image0, n0, hres, hcase⟩
  · subst ht
    simp only [List.mem_singleton] at hmem
    cases hmem
  have main_case : ∀ w : WcsInfo, image0.header.wcs = some w →
      Ev.createBlank ra dec f px rot cb ∈ preTrace it0 fov w →
      ∃ it0 rest image0 n0 w,
        items = it0 :: rest ∧
        resolveItem0 env it0 [] = (.ok (image0, n0), item0LoadEvents it0) ∧
        image0.header.wcs = some w ∧
        px = |w.cdelt1| ∧ cb = (np_sign w.cdelt1, np_sign w.cdelt2) ∧
        ra = w.crval1 ∧ dec = w.crval2 ∧ rot = w.rot ∧ f = fov := by
    intro w hw hm
    rcases List.mem_append.1 hm with h1 | h1
    · obtain ⟨p, hp⟩ := mem_item0LoadEvents h1
      cases hp
    · rcases List.mem_cons.1 h1 with h2 | h2
      · cases h2
      · simp only [List.mem_singleton] at h2
        injection h2 with e1 e2 e3 e4 e5 e6
        exact ⟨it0, rest, image0, n0, w, hi, hres, hw, e4, e6, e1, e2, e5, e3⟩
  rcases hcase with ⟨-, -, ht⟩ | ⟨w, hw, hcase⟩
  · subst ht
    obtain ⟨p, hp⟩ := mem_item0LoadEvents hmem
    cases hp
  rcases hcase with ⟨e, -, -, ht⟩ | ⟨canvas, hcr, hcase⟩
  · subst ht
    exact main_case w hw hmem
  rcases hcase with ⟨e, -, -, ht⟩ | ⟨c1, pls, hin, hloop⟩
  · subst ht
    rcases List.mem_append.1 hmem with h1 | h1
    · exact main_case w hw h1
    · rcases List.mem_cons.1 h1 with h2 | h2
      · cases h2
      · simp only [List.mem_singleton] at h2
        cases h2
  · obtain ⟨⟨d, hd, hde⟩, -⟩ :=
      mosaicLoop_spec env rest c1 (preTrace4 it0 fov w canvas image0) r t hloop
    subst hd
    rcases List.mem_append.1 hmem with h1 | h1
    · rcases List.mem_append.1 h1 with h2 | h2
      · exact main_case w hw h2
      · rcases List.mem_cons.1 h2 with h3 | h3
        · cases h3
        · simp only [List.mem_singleton] at h3
          cases h3
    · obtain ⟨nm2, hnm⟩ := hde _ h1
      cases hnm

/-- C8 (witness): the allocation recorded on a concrete run uses
`px = |cdelt1| = 1` and `cdbase = (1, 1)` from `imgA`'s header. -/
theorem mosaic_c8_witness :
    ∃ it0 rest image0 n0 w,
      ([Item.image imgA] : List Item) = it0 :: rest ∧
      resolveItem0 envT it0 [] = (.ok (image0, n0), item0LoadEvents it0) ∧
      image0.header.wcs = some w ∧
      (1 : ℚ) = |w.cdelt1| ∧
      ((1 : ℚ), (1 : ℚ)) = (np_sign w.cdelt1, np_sign w.cdelt2) ∧
      (10 : ℚ) = w.crval1 ∧ (20 : ℚ) = w.crval2 ∧ (0 : ℚ) = w.rot ∧
      (some (1 : ℚ) : Option ℚ) = some 1 :=
  mosaic_c8_cdbase
    (show runMosaic envT [Item.image imgA] (some 1) = (.ok mosaicCanvasA, traceA)
      from by with_unfolding_all rfl)
    (by decide)

/-- C9: in every successful `mosaic` run the canvas is allocated
exactly once (one allocation event in the whole trace), every
compositor call in the run operates on that same canvas object, and
the object the caller receives is that very canvas (same object
identity — in-place mutation only, never replaced mid-run). -/
theorem mosaic_c9_single_canvas {env : Env} {items : List Item}
    {fov : Option ℚ} {c : AstroImage} {t : List Ev}
    (h : runMosaic env items fov = (.ok c, t)) :
    t.countP isCreateBlank = 1 ∧
    ∃ it0 rest image0 n0 w canvas,
      items = it0 :: rest ∧
      resolveItem0 env it0 [] = (.ok (image0, n0), item0LoadEvents it0) ∧
      image0.header.wcs = some w ∧
      create_blank_image w.crval1 w.crval2 fov |w.cdelt1| w.rot
        (np_sign w.cdelt1, np_sign w.cdelt2) = .ok canvas ∧
      c.objId = canvas.objId ∧
      (∀ id nm b, Ev.inlineCall id nm b ∈ t → id = canvas.objId) := by
  obtain ⟨it0, rest, image0, n0, w, canvas, c1, pls, hi, hres, hw, hcr, hin,
    hobj, hall, ht⟩ := mosaic_ok_spec h
  subst ht
  constructor
  · rw [List.countP_append, countP_isCreateBlank_preTrace4]
    have hz : (rest.map (fun it =>
        Ev.inlineCall canvas.objId [(itemImage it).name] none)).countP
        isCreateBlank = 0 := by
      rw [List.countP_eq_zero]
      intro e he
      obtain ⟨it, -, rfl⟩ := List.mem_map.1 he
      simp [isCreateBlank]
    rw [hz]
  · refine ⟨it0, rest, image0, n0, w, canvas, hi, hres, hw, hcr, hobj, ?_⟩
    intro id nm b hmem
    rcases List.mem_append.1 hmem with h1 | h1
    · rcases List.mem_append.1 h1 with h2 | h2
      · rcases List.mem_append.1 h2 with h3 | h3
        · obtain ⟨p, hp⟩ := mem_item0LoadEvents h3
          cases hp
        · rcases List.mem_cons.1 h3 with h4 | h4
          · cases h4
          · simp only [List.mem_singleton] at h4
            cases h4
      · rcases List.mem_cons.1 h2 with h3 | h3
        · cases h3
        · simp only [List.mem_singleton] at h3
          simp only [Ev.inlineCall.injEq] at h3
          exact h3.1
    · obtain ⟨it, -, heq⟩ := List.mem_map.1 h1
      simp only [Ev.inlineCall.injEq] at heq
      exact heq.1.symm

/-- C9 (witness): the single-allocation and single-canvas facts on a
concrete two-image run. -/
theorem mosaic_c9_witness :
    (traceA ++ [Ev.inlineCall 0 [some "b"] none]).countP isCreateBlank = 1 ∧
    ∃ it0 rest image0 n0 w canvas,
      ([Item.image imgA, Item.image imgB] : List Item) = it0 :: rest ∧
      resolveItem0 envT it0 [] = (.ok (image0, n0), item0LoadEvents it0) ∧
      image0.header.wcs = some w ∧
      create_blank_image w.crval1 w.crval2 (some 1) |w.cdelt1| w.rot
        (np_sign w.cdelt1, np_sign w.cdelt2) = .ok canvas ∧
      mosaicCanvasB.objId = canvas.objId ∧
      (∀ id nm b,
        Ev.inlineCall id nm b ∈ traceA ++ [Ev.inlineCall 0 [some "b"] none] →
        id = canvas.objId) :=
  mosaic_c9_single_canvas
    (show runMosaic envT [Item.image imgA, Item.image imgB] (some 1) =
      (.ok mosaicCanvasB, traceA ++ [Ev.inlineCall 0 [some "b"] none])
      from by with_unfolding_all rfl)

/-- C10: the CLI write path is broken.  With a valid single input the
mosaic itself succeeds, yet a `main` run given an output path stops
with `NameError: io_fits` (at `io_fits.use('astropy')`), so the output
file is never removed nor written — contradicting the claim that the
composed mosaic is written to the output path, overwriting any
existing file.  (The run does end in an uncaught error, hence a
non-zero process exit — but with the wrong error and no file
written.) -/
theorem main_c10_write_namerror :
    (runMosaic envL [Item.path "input1.fits"] (some 1)).1 =
      .ok mosaicCanvasA ∧
    runMain envL { fov := some 1, outfile := some "output.fits" }
      [Item.path "input1.fits"] =
      (.error (.nameError "io_fits"),
       [Ev.loadData "input1.fits", Ev.getRotationAndScale,
        Ev.createBlank 10 20 (some 1) 1 0 (1, 1), Ev.getRotationAndScale,
        Ev.inlineCall 0 [some "a"] (some false)]) ∧
    (runMain envL { fov := some 1, outfile := some "output.fits" }
      [Item.path "input1.fits"]).2.countP isSaveAsFile = 0 ∧
    (runMain envL { fov := some 1, outfile := some "output.fits" }
      [Item.path "input1.fits"]).2.countP isRemoveFile = 0 := by
  refine ⟨?_, ?_, ?_, ?_⟩ <;> with_unfolding_all rfl

/-- C2 (counterexample): a non-empty item list on which `mosaic` does
not resolve-and-inline every remaining item: with item 1 a path, the
run aborts (unbound name `io_fits`) and the trace shows exactly one
inline call — item 1 was never inlined — refuting the claim read over
every non-empty item list. -/
theorem mosaic_c2_counterexample :
    (runMosaic envT [Item.image imgA, Item.path "d.fits"] none).1 =
      .error (.nameError "io_fits") ∧
    inlineArgs (runMosaic envT [Item.image imgA, Item.path "d.fits"] none).2 =
      [some true] := by
  constructor <;> with_unfolding_all rfl
